import Mathlib

/-!
Shallow embedding of `src/market_strategy_app.py` (the `simulate_strategy`
engine and the breakeven-chance metric computed in `main`), with theorems
settling the specification claims about it.

Modelling choices:
* Python floats are modelled as rationals (`ℚ`); the arithmetic the claims
  are about (products, differences, clamping) is exact.
* The global numpy random generator is modelled as a state `RNGState`
  (current seed and position in the deviate stream) together with an
  abstract family `gauss : Nat → Nat → ℚ` giving, for each seed, the
  sequence of standard-normal deviates the seeded generator would produce;
  `np.random.normal(loc, scale, size)` returns `loc + scale * z` for the
  next `size` deviates `z`, raises `ValueError` when `scale < 0`, and
  returns `loc` exactly when `scale = 0`.
* Python scalar division by zero raises `ZeroDivisionError`; the engine's
  baseline-demand formula divides by `cost`, so `cost = 0` raises there.
* Fallible computation returns `Except PyError`.
-/

/-- Errors a run of the engine can surface.  `invalidParameter` is the error
kind named by the specification; the other three are the Python/numpy errors
the code can actually raise. -/
inductive PyError where
  | zeroDivisionError
  | valueErrorNegativeScale
  | valueErrorNegativeDimensions
  | invalidParameter
deriving DecidableEq, Repr

/-- State of the global numpy random generator: the seed it was last seeded
with and the position reached in that seed's deviate stream. -/
structure RNGState where
  seed : Nat
  pos : Nat
deriving DecidableEq, Repr

/-- `np.random.seed(s)`: resets the global generator to seed `s`, position 0. -/
def npSeed (s : Nat) (_st : RNGState) : RNGState :=
  { seed := s, pos := 0 }

/-- `np.clip(x, lo, hi)` on a scalar: `min (max x lo) hi` (when `lo > hi`
numpy returns `hi`, which this expression also does). -/
def npClip (x lo hi : ℚ) : ℚ :=
  min (max x lo) hi

/-- `np.random.normal(loc, scale, size)` drawing from the global generator
state: raises `ValueError` if `scale < 0`, raises `ValueError` if
`size < 0`, otherwise returns `size` samples `loc + scale * z_i` where the
`z_i` are the generator's next standard-normal deviates, and the advanced
state. -/
def npNormal (gauss : Nat → Nat → ℚ) (st : RNGState) (loc scale : ℚ)
    (size : Int) : Except PyError (List ℚ × RNGState) :=
  if scale < 0 then Except.error PyError.valueErrorNegativeScale
  else if size < 0 then Except.error PyError.valueErrorNegativeDimensions
  else Except.ok
    ((List.range size.toNat).map (fun i => loc + scale * gauss st.seed (st.pos + i)),
     { seed := st.seed, pos := st.pos + size.toNat })

/-- Line 22 of the source: the deterministic baseline demand
`market_size * (1 - elasticity * (price - cost) / cost)`. -/
def base_demand (price cost elasticity market_size : ℚ) : ℚ :=
  market_size * (1 - elasticity * (price - cost) / cost)

/-- The result table (`pd.DataFrame` of lines 32-36): three column-aligned
sequences. -/
structure SimResult where
  demand : List ℚ
  revenue : List ℚ
  profit : List ℚ
deriving DecidableEq, Repr

/-- `simulate_strategy` (lines 10-38 of the source).  Takes the incoming
global generator state (immediately overwritten by `np.random.seed(42)`),
computes the baseline demand (raising `ZeroDivisionError` when `cost = 0`),
samples `simulations` demands with mean `base_demand` and scale
`base_demand * noise_std`, clips each into `[0, market_size]`, derives the
revenue and profit columns, and returns the table with the final generator
state. -/
def simulate_strategy (gauss : Nat → Nat → ℚ) (st0 : RNGState)
    (price cost elasticity market_size : ℚ) (strategy_type : String)
    (simulations : Int) (noise_std : ℚ) :
    Except PyError SimResult × RNGState :=
  let st1 := npSeed 42 st0
  if cost = 0 then (Except.error PyError.zeroDivisionError, st1)
  else
    let bd := base_demand price cost elasticity market_size
    match npNormal gauss st1 bd (bd * noise_std) simulations with
    | Except.error e => (Except.error e, st1)
    | Except.ok (raw, st2) =>
        let demand_dist := raw.map (fun x => npClip x 0 market_size)
        let revenue := demand_dist.map (fun d => d * price)
        let profit := demand_dist.map (fun d => d * (price - cost))
        (Except.ok { demand := demand_dist, revenue := revenue, profit := profit }, st2)

/-- Line 77 of the source: `(results['Profit'] > 0).mean()`, the fraction of
trials with strictly positive profit. -/
def breakeven_chance (res : SimResult) : ℚ :=
  (res.profit.countP (fun x => decide (0 < x)) : ℚ) / (res.profit.length : ℚ)

/-- The parameter constraints of the specification (§3): `price > 0`,
`cost > 0`, `elasticity ≥ 0`, `marketSize > 0`, `trialCount > 0`,
`noiseFraction ≥ 0`. -/
def ValidParams (price cost elasticity market_size : ℚ) (simulations : Int)
    (noise_std : ℚ) : Prop :=
  0 < price ∧ 0 < cost ∧ 0 ≤ elasticity ∧ 0 < market_size ∧
    0 < simulations ∧ 0 ≤ noise_std

instance (price cost elasticity market_size : ℚ) (simulations : Int)
    (noise_std : ℚ) :
    Decidable (ValidParams price cost elasticity market_size simulations noise_std) :=
  inferInstanceAs (Decidable (_ ∧ _ ∧ _ ∧ _ ∧ _ ∧ _))

/-- A concrete deviate stream (all deviates zero), used to instantiate
closed statements. -/
def zeroGauss : Nat → Nat → ℚ :=
  fun _ _ => 0

deriving instance DecidableEq for Except

/-! ### Helper lemmas characterising the four possible outcomes of a run -/

lemma simulate_strategy_zero_cost (gauss : Nat → Nat → ℚ) (st : RNGState)
    (p c e m : ℚ) (lbl : String) (sims : Int) (n : ℚ) (hc : c = 0) :
    (simulate_strategy gauss st p c e m lbl sims n).1 =
      Except.error PyError.zeroDivisionError := by
  simp [simulate_strategy, hc]

lemma simulate_strategy_neg_scale (gauss : Nat → Nat → ℚ) (st : RNGState)
    (p c e m : ℚ) (lbl : String) (sims : Int) (n : ℚ) (hc : c ≠ 0)
    (hs : base_demand p c e m * n < 0) :
    (simulate_strategy gauss st p c e m lbl sims n).1 =
      Except.error PyError.valueErrorNegativeScale := by
  simp [simulate_strategy, npNormal, hc, hs]

lemma simulate_strategy_neg_size (gauss : Nat → Nat → ℚ) (st : RNGState)
    (p c e m : ℚ) (lbl : String) (sims : Int) (n : ℚ) (hc : c ≠ 0)
    (hs : ¬ base_demand p c e m * n < 0) (hd : sims < 0) :
    (simulate_strategy gauss st p c e m lbl sims n).1 =
      Except.error PyError.valueErrorNegativeDimensions := by
  simp [simulate_strategy, npNormal, hc, hs, hd]

lemma simulate_strategy_ok (gauss : Nat → Nat → ℚ) (st : RNGState)
    (p c e m : ℚ) (lbl : String) (sims : Int) (n : ℚ) (hc : c ≠ 0)
    (hs : ¬ base_demand p c e m * n < 0) (hd : ¬ sims < 0) :
    (simulate_strategy gauss st p c e m lbl sims n).1 =
      Except.ok
        { demand := (List.range sims.toNat).map
            (fun i => npClip
              (base_demand p c e m + base_demand p c e m * n * gauss 42 (0 + i)) 0 m)
          revenue := ((List.range sims.toNat).map
            (fun i => npClip
              (base_demand p c e m + base_demand p c e m * n * gauss 42 (0 + i)) 0 m)).map
            (fun d => d * p)
          profit := ((List.range sims.toNat).map
            (fun i => npClip
              (base_demand p c e m + base_demand p c e m * n * gauss 42 (0 + i)) 0 m)).map
            (fun d => d * (p - c)) } := by
  simp [simulate_strategy, npNormal, npSeed, hc, hs, hd]

lemma npClip_bounds (x m : ℚ) (hm : 0 ≤ m) :
    0 ≤ npClip x 0 m ∧ npClip x 0 m ≤ m :=
  ⟨le_min (le_max_right x 0) hm, min_le_right _ _⟩

/-- Generic fact about `List.getD` through a zero-preserving map, used for the
per-row field derivations. -/
lemma getD_map_eq (l : List ℚ) (f : ℚ → ℚ) (hf : f 0 = 0) (i : Nat) :
    (l.map f).getD i 0 = f (l.getD i 0) := by
  induction l generalizing i with
  | nil => simp [hf]
  | cons a t ih =>
    cases i with
    | zero => rw [List.map_cons, List.getD_cons_zero, List.getD_cons_zero]
    | succ j => rw [List.map_cons, List.getD_cons_succ, List.getD_cons_succ]; exact ih j

/-- Claim C1 (corrected), counterexample: `cost = -1 <= 0` does not raise
`InvalidParameter` (the run succeeds), while a constraint-satisfying
parameter set (price 3, cost 1, elasticity 1, market 1000, noise 1/20,
5 trials) does raise an error (numpy's negative-scale `ValueError`), so
neither direction of the claimed raises-iff holds. -/
theorem C1_counterexample :
    ((simulate_strategy zeroGauss ⟨0, 0⟩ 3 (-1) 1 1000 "Premium" 5 0).1).isOk = true
    ∧ ValidParams 3 1 1 1000 5 (1/20)
    ∧ (simulate_strategy zeroGauss ⟨0, 0⟩ 3 1 1 1000 "Premium" 5 (1/20)).1 =
        Except.error PyError.valueErrorNegativeScale := by
  refine ⟨?_, by norm_num [ValidParams], ?_⟩
  · rw [simulate_strategy_ok zeroGauss ⟨0, 0⟩ 3 (-1) 1 1000 "Premium" 5 0
      (by norm_num) (by norm_num) (by norm_num)]
    rfl
  · exact simulate_strategy_neg_scale zeroGauss ⟨0, 0⟩ 3 1 1 1000 "Premium" 5 (1/20)
      (by norm_num) (by norm_num [base_demand])

/-- Claim C1 (amended): the engine performs no parameter validation and never
raises `InvalidParameter`; a run fails iff `cost = 0` (ZeroDivisionError), or
the sampling scale `baseDemand * noiseFraction` is negative (ValueError), or
`trialCount < 0` (ValueError); every other parameter set, including
constraint-violating ones such as `cost < 0`, returns a result. -/
theorem C1_amended (gauss : Nat → Nat → ℚ) (st : RNGState) (p c e m : ℚ)
    (lbl : String) (sims : Int) (n : ℚ) :
    ((∃ err, (simulate_strategy gauss st p c e m lbl sims n).1 = Except.error err) ↔
      (c = 0 ∨ base_demand p c e m * n < 0 ∨ sims < 0))
    ∧ (simulate_strategy gauss st p c e m lbl sims n).1 ≠
        Except.error PyError.invalidParameter := by
  by_cases hc : c = 0
  · rw [simulate_strategy_zero_cost gauss st p c e m lbl sims n hc]
    exact ⟨⟨fun _ => Or.inl hc, fun _ => ⟨_, rfl⟩⟩, by decide⟩
  · by_cases hs : base_demand p c e m * n < 0
    · rw [simulate_strategy_neg_scale gauss st p c e m lbl sims n hc hs]
      exact ⟨⟨fun _ => Or.inr (Or.inl hs), fun _ => ⟨_, rfl⟩⟩, by decide⟩
    · by_cases hd : sims < 0
      · rw [simulate_strategy_neg_size gauss st p c e m lbl sims n hc hs hd]
        exact ⟨⟨fun _ => Or.inr (Or.inr hd), fun _ => ⟨_, rfl⟩⟩, by decide⟩
      · rw [simulate_strategy_ok gauss st p c e m lbl sims n hc hs hd]
        refine ⟨⟨?_, ?_⟩, fun h => Except.noConfusion h⟩
        · rintro ⟨err, herr⟩
          exact Except.noConfusion herr
        · rintro (h | h | h)
          · exact absurd h hc
          · exact absurd h hs
          · exact absurd h hd

/-- Claim C2 (corrected), counterexample: a constraint-satisfying parameter
set with negative baseline demand makes the sampling scale negative and the
run fails with numpy's negative-scale `ValueError`, so the scale is not
`|baseDemand| * noiseFraction` and the invalid-scale branch is reachable. -/
theorem C2_counterexample :
    ValidParams 5 1 1 200 5 (1/10)
    ∧ (simulate_strategy zeroGauss ⟨0, 0⟩ 5 1 1 200 "Low Price" 5 (1/10)).1 =
        Except.error PyError.valueErrorNegativeScale := by
  refine ⟨by norm_num [ValidParams], ?_⟩
  exact simulate_strategy_neg_scale zeroGauss ⟨0, 0⟩ 5 1 1 200 "Low Price" 5 (1/10)
    (by norm_num) (by norm_num [base_demand])

/-- Claim C2 (amended): the sampling scale is `baseDemand * noiseFraction`
without an absolute value, so when it is negative the run fails with the
sampler's negative-scale error; when `baseDemand = 0` the scale is 0 and
every returned demand sample equals 0 exactly. -/
theorem C2_amended (gauss : Nat → Nat → ℚ) (st : RNGState) (p c e m : ℚ)
    (lbl : String) (sims : Int) (n : ℚ) (hc : c ≠ 0) :
    (base_demand p c e m * n < 0 →
      (simulate_strategy gauss st p c e m lbl sims n).1 =
        Except.error PyError.valueErrorNegativeScale)
    ∧ (base_demand p c e m = 0 → 0 ≤ m → ¬ sims < 0 →
        ∃ res, (simulate_strategy gauss st p c e m lbl sims n).1 = Except.ok res
          ∧ ∀ d ∈ res.demand, d = 0) := by
  refine ⟨fun hs => simulate_strategy_neg_scale gauss st p c e m lbl sims n hc hs, ?_⟩
  intro hb hm hd
  refine ⟨_, simulate_strategy_ok gauss st p c e m lbl sims n hc (by rw [hb, zero_mul]; exact lt_irrefl 0) hd, ?_⟩
  intro d hdm
  simp only [List.mem_map] at hdm
  obtain ⟨i, _, rfl⟩ := hdm
  rw [hb]
  simp only [npClip, zero_mul, add_zero, max_self]
  exact min_eq_left hm

/-- Claim C2 witness: instantiation at price 3, cost 1, elasticity 1/2,
market 1000, where the baseline demand is exactly 0. -/
theorem C2_witness :
    (base_demand 3 1 (1/2) 1000 * (1/20) < 0 →
      (simulate_strategy zeroGauss ⟨0, 0⟩ 3 1 (1/2) 1000 "Custom" 5 (1/20)).1 =
        Except.error PyError.valueErrorNegativeScale)
    ∧ (base_demand 3 1 (1/2) 1000 = 0 → (0:ℚ) ≤ 1000 → ¬ (5:Int) < 0 →
        ∃ res, (simulate_strategy zeroGauss ⟨0, 0⟩ 3 1 (1/2) 1000 "Custom" 5 (1/20)).1 =
            Except.ok res ∧ ∀ d ∈ res.demand, d = 0) :=
  C2_amended zeroGauss ⟨0, 0⟩ 3 1 (1/2) 1000 "Custom" 5 (1/20) (by norm_num)

/-- A fully evaluated successful run (price 3, cost 2, elasticity 1/2,
market 1000, zero noise, one trial), used to instantiate witnesses. -/
lemma run_concrete_750 :
    (simulate_strategy zeroGauss ⟨0, 0⟩ 3 2 (1/2) 1000 "Custom" 1 0).1 =
      Except.ok { demand := [750], revenue := [2250], profit := [750] } := by
  rw [simulate_strategy_ok zeroGauss ⟨0, 0⟩ 3 2 (1/2) 1000 "Custom" 1 0
    (by norm_num) (by norm_num) (by norm_num)]
  have hb : base_demand 3 2 (1/2) 1000 = 750 := by norm_num [base_demand]
  have hclip : npClip 750 0 1000 = (750:ℚ) := by
    rw [npClip, max_eq_left (by norm_num : (0:ℚ) ≤ 750),
      min_eq_left (by norm_num : (750:ℚ) ≤ 1000)]
  simp only [hb, mul_zero, zero_mul, add_zero, Int.toNat_one,
    show List.range 1 = [0] from rfl, List.map_cons, List.map_nil, hclip]
  norm_num

/-- Claim C3 (confirmed): for every valid parameter set, every demand value of
a returned result lies in the closed interval `[0, marketSize]`. -/
theorem C3_demand_in_range (gauss : Nat → Nat → ℚ) (st : RNGState) (p c e m : ℚ)
    (lbl : String) (sims : Int) (n : ℚ) (res : SimResult)
    (hv : ValidParams p c e m sims n)
    (hok : (simulate_strategy gauss st p c e m lbl sims n).1 = Except.ok res) :
    ∀ d ∈ res.demand, 0 ≤ d ∧ d ≤ m := by
  obtain ⟨hp, hc, he, hm, hsims, hn⟩ := hv
  by_cases hs : base_demand p c e m * n < 0
  · rw [simulate_strategy_neg_scale gauss st p c e m lbl sims n (ne_of_gt hc) hs] at hok
    exact absurd hok (fun h => Except.noConfusion h)
  · rw [simulate_strategy_ok gauss st p c e m lbl sims n (ne_of_gt hc) hs
      (not_lt.mpr hsims.le)] at hok
    rw [Except.ok.injEq] at hok
    subst hok
    intro d hd
    simp only [List.mem_map] at hd
    obtain ⟨i, _, rfl⟩ := hd
    exact npClip_bounds _ m hm.le

/-- Claim C3 witness: the single demand row of the concrete run lies in
`[0, 1000]`. -/
theorem C3_witness : (0:ℚ) ≤ 750 ∧ (750:ℚ) ≤ 1000 :=
  C3_demand_in_range zeroGauss ⟨0, 0⟩ 3 2 (1/2) 1000 "Custom" 1 0
    { demand := [750], revenue := [2250], profit := [750] }
    (by norm_num [ValidParams]) run_concrete_750 750 (List.mem_singleton_self 750)

/-- Claim C4 (confirmed): in every returned result, row by row, revenue is
exactly `demand * price` and profit is exactly `demand * (price - cost)`. -/
theorem C4_exact_fields (gauss : Nat → Nat → ℚ) (st : RNGState) (p c e m : ℚ)
    (lbl : String) (sims : Int) (n : ℚ) (res : SimResult)
    (hv : ValidParams p c e m sims n)
    (hok : (simulate_strategy gauss st p c e m lbl sims n).1 = Except.ok res) :
    ∀ i : Nat, res.revenue.getD i 0 = res.demand.getD i 0 * p
      ∧ res.profit.getD i 0 = res.demand.getD i 0 * (p - c) := by
  obtain ⟨hp, hc, he, hm, hsims, hn⟩ := hv
  by_cases hs : base_demand p c e m * n < 0
  · rw [simulate_strategy_neg_scale gauss st p c e m lbl sims n (ne_of_gt hc) hs] at hok
    exact absurd hok (fun h => Except.noConfusion h)
  · rw [simulate_strategy_ok gauss st p c e m lbl sims n (ne_of_gt hc) hs
      (not_lt.mpr hsims.le)] at hok
    rw [Except.ok.injEq] at hok
    subst hok
    intro i
    exact ⟨getD_map_eq _ _ (zero_mul p) i, getD_map_eq _ _ (zero_mul (p - c)) i⟩

/-- Claim C4 witness: the concrete run's first row satisfies both exact
derivations. -/
theorem C4_witness :
    ([2250] : List ℚ).getD 0 0 = ([750] : List ℚ).getD 0 0 * 3
    ∧ ([750] : List ℚ).getD 0 0 = ([750] : List ℚ).getD 0 0 * (3 - 2) :=
  C4_exact_fields zeroGauss ⟨0, 0⟩ 3 2 (1/2) 1000 "Custom" 1 0
    { demand := [750], revenue := [2250], profit := [750] }
    (by norm_num [ValidParams]) run_concrete_750 0

/-- Claim C5 (confirmed): for every valid parameter set, all three columns of
a returned result have length exactly `trialCount`. -/
theorem C5_row_count (gauss : Nat → Nat → ℚ) (st : RNGState) (p c e m : ℚ)
    (lbl : String) (sims : Int) (n : ℚ) (res : SimResult)
    (hv : ValidParams p c e m sims n)
    (hok : (simulate_strategy gauss st p c e m lbl sims n).1 = Except.ok res) :
    (res.demand.length : Int) = sims ∧ (res.revenue.length : Int) = sims
      ∧ (res.profit.length : Int) = sims := by
  obtain ⟨hp, hc, he, hm, hsims, hn⟩ := hv
  by_cases hs : base_demand p c e m * n < 0
  · rw [simulate_strategy_neg_scale gauss st p c e m lbl sims n (ne_of_gt hc) hs] at hok
    exact absurd hok (fun h => Except.noConfusion h)
  · rw [simulate_strategy_ok gauss st p c e m lbl sims n (ne_of_gt hc) hs
      (not_lt.mpr hsims.le)] at hok
    rw [Except.ok.injEq] at hok
    subst hok
    have hlen := Int.toNat_of_nonneg hsims.le
    simp only [List.length_map, List.length_range]
    exact ⟨hlen, hlen, hlen⟩

/-- Claim C5 witness: the concrete one-trial run has one row in each column. -/
theorem C5_witness :
    (([750] : List ℚ).length : Int) = 1 ∧ (([2250] : List ℚ).length : Int) = 1
      ∧ (([750] : List ℚ).length : Int) = 1 :=
  C5_row_count zeroGauss ⟨0, 0⟩ 3 2 (1/2) 1000 "Custom" 1 0
    { demand := [750], revenue := [2250], profit := [750] }
    (by norm_num [ValidParams]) run_concrete_750

/-- Claim C6 (confirmed): two runs with identical parameters and the random
source reset to the same seed produce identical results (sequences of
demand, revenue and profit, in trial order, and final generator state). -/
theorem C6_determinism (gauss : Nat → Nat → ℚ) (s1 s2 : Nat) (p c e m : ℚ)
    (lbl : String) (sims : Int) (n : ℚ) (hseed : s1 = s2) :
    simulate_strategy gauss ⟨s1, 0⟩ p c e m lbl sims n =
      simulate_strategy gauss ⟨s2, 0⟩ p c e m lbl sims n := by
  rw [hseed]

/-- Claim C6 witness: instantiation at seed 7 on a concrete parameter set. -/
theorem C6_witness :
    simulate_strategy zeroGauss ⟨7, 0⟩ 3 2 (1/2) 1000 "Premium" 5 (1/20) =
      simulate_strategy zeroGauss ⟨7, 0⟩ 3 2 (1/2) 1000 "Premium" 5 (1/20) :=
  C6_determinism zeroGauss 7 7 3 2 (1/2) 1000 "Premium" 5 (1/20) rfl

/-- Claim C7 (corrected), counterexample: a constraint-satisfying parameter
set with negative baseline demand (price 4, cost 1, elasticity 1, market 500,
noise 1/10) makes the run fail with the sampler's negative-scale error, so a
negative baseline is not always "permitted and handled by clamping". -/
theorem C7_counterexample :
    ValidParams 4 1 1 500 5 (1/10)
    ∧ base_demand 4 1 1 500 < 0
    ∧ (simulate_strategy zeroGauss ⟨0, 0⟩ 4 1 1 500 "Penetration" 5 (1/10)).1 =
        Except.error PyError.valueErrorNegativeScale := by
  refine ⟨by norm_num [ValidParams], by norm_num [base_demand], ?_⟩
  exact simulate_strategy_neg_scale zeroGauss ⟨0, 0⟩ 4 1 1 500 "Penetration" 5 (1/10)
    (by norm_num) (by norm_num [base_demand])

/-- Claim C7 (amended): the engine's baseline demand equals
`marketSize * (1 - elasticity * (price - cost) / cost)`; at `elasticity = 0`
it equals `marketSize` regardless of price; and a negative baseline demand is
permitted (the run succeeds, handled by clamping) when `noiseFraction = 0`,
while with `noiseFraction > 0` a negative baseline makes the sampler raise. -/
theorem C7_amended (gauss : Nat → Nat → ℚ) (st : RNGState) (p c e m : ℚ)
    (lbl : String) (sims : Int) (n : ℚ) (hc : c ≠ 0) :
    base_demand p c e m = m * (1 - e * (p - c) / c)
    ∧ (e = 0 → base_demand p c e m = m)
    ∧ (n = 0 → ¬ sims < 0 →
        ∃ res, (simulate_strategy gauss st p c e m lbl sims n).1 = Except.ok res) := by
  refine ⟨rfl, ?_, ?_⟩
  · intro he
    subst he
    simp [base_demand]
  · intro hn hd
    refine ⟨_, simulate_strategy_ok gauss st p c e m lbl sims n hc ?_ hd⟩
    rw [hn, mul_zero]
    exact lt_irrefl 0

/-- Claim C7 witness: instantiation at price 4, cost 1, elasticity 1,
market 500, zero noise, where the baseline demand is negative yet the run
succeeds. -/
theorem C7_witness :
    base_demand 4 1 1 500 = 500 * (1 - 1 * (4 - 1) / 1)
    ∧ ((1:ℚ) = 0 → base_demand 4 1 1 500 = 500)
    ∧ ((0:ℚ) = 0 → ¬ (5:Int) < 0 →
        ∃ res, (simulate_strategy zeroGauss ⟨0, 0⟩ 4 1 1 500 "Custom" 5 0).1 =
          Except.ok res) :=
  C7_amended zeroGauss ⟨0, 0⟩ 4 1 1 500 "Custom" 5 0 (by norm_num)

/-- Claim C8 (confirmed): the strategy label does not affect the computation:
two calls agreeing on every other argument and on the random source return
identical results for any two labels. -/
theorem C8_label_noninterference (gauss : Nat → Nat → ℚ) (st : RNGState)
    (p c e m : ℚ) (lbl1 lbl2 : String) (sims : Int) (n : ℚ) :
    simulate_strategy gauss st p c e m lbl1 sims n =
      simulate_strategy gauss st p c e m lbl2 sims n := rfl

/-- Claim C9 (confirmed): at price 3, cost 2, elasticity 1/2, market 1000,
zero noise, 5 trials, the engine returns exactly 5 rows, each with demand 750,
revenue 2250 and profit 750 (for any deviate stream and incoming generator
state), and the breakeven chance of that result is 1. -/
theorem C9_concrete_scenario (gauss : Nat → Nat → ℚ) (st : RNGState) (lbl : String) :
    (simulate_strategy gauss st 3 2 (1/2) 1000 lbl 5 0).1 =
      Except.ok { demand := List.replicate 5 750, revenue := List.replicate 5 2250,
                  profit := List.replicate 5 750 }
    ∧ breakeven_chance { demand := List.replicate 5 750, revenue := List.replicate 5 2250,
                         profit := List.replicate 5 750 } = 1 := by
  constructor
  · rw [simulate_strategy_ok gauss st 3 2 (1/2) 1000 lbl 5 0
      (by norm_num) (by norm_num) (by norm_num)]
    have hb : base_demand 3 2 (1/2) 1000 = 750 := by norm_num [base_demand]
    have hclip : npClip 750 0 1000 = (750:ℚ) := by
      rw [npClip, max_eq_left (by norm_num : (0:ℚ) ≤ 750),
        min_eq_left (by norm_num : (750:ℚ) ≤ 1000)]
    simp only [hb, mul_zero, zero_mul, add_zero, hclip,
      show ((5:Int).toNat = 5) from rfl, show List.range 5 = [0, 1, 2, 3, 4] from rfl,
      List.map_cons, List.map_nil, show (List.replicate 5 (750:ℚ)) = [750, 750, 750, 750, 750] from rfl,
      show (List.replicate 5 (2250:ℚ)) = [2250, 2250, 2250, 2250, 2250] from rfl]
    norm_num
  · have hd : decide ((0:ℚ) < 750) = true := decide_eq_true (by norm_num)
    rw [breakeven_chance]
    simp only [show (List.replicate 5 (750:ℚ)) = [750, 750, 750, 750, 750] from rfl,
      List.countP_cons, List.countP_nil, List.length_cons, List.length_nil, hd]
    norm_num

/-- Claim C10 (confirmed): in every returned result, row by row, profit
equals revenue minus demand times cost, and every revenue value is
non-negative (the input price being positive under the validity
constraints), while profit may be negative. -/
theorem C10_algebraic_relation (gauss : Nat → Nat → ℚ) (st : RNGState)
    (p c e m : ℚ) (lbl : String) (sims : Int) (n : ℚ) (res : SimResult)
    (hv : ValidParams p c e m sims n)
    (hok : (simulate_strategy gauss st p c e m lbl sims n).1 = Except.ok res) :
    (∀ i : Nat, res.profit.getD i 0 = res.revenue.getD i 0 - res.demand.getD i 0 * c)
    ∧ ∀ r ∈ res.revenue, 0 ≤ r := by
  obtain ⟨hp, hc, he, hm, hsims, hn⟩ := hv
  by_cases hs : base_demand p c e m * n < 0
  · rw [simulate_strategy_neg_scale gauss st p c e m lbl sims n (ne_of_gt hc) hs] at hok
    exact absurd hok (fun h => Except.noConfusion h)
  · rw [simulate_strategy_ok gauss st p c e m lbl sims n (ne_of_gt hc) hs
      (not_lt.mpr hsims.le)] at hok
    rw [Except.ok.injEq] at hok
    subst hok
    constructor
    · intro i
      dsimp only
      rw [getD_map_eq _ _ (zero_mul (p - c)) i, getD_map_eq _ _ (zero_mul p) i]
      ring
    · intro r hr
      simp only [List.mem_map] at hr
      obtain ⟨x, ⟨i, hi, rfl⟩, rfl⟩ := hr
      exact mul_nonneg (npClip_bounds _ m hm.le).1 hp.le

/-- Claim C10 witness: the concrete run's first row satisfies the relation
and its revenue is non-negative. -/
theorem C10_witness :
    ([750] : List ℚ).getD 0 0 =
        ([2250] : List ℚ).getD 0 0 - ([750] : List ℚ).getD 0 0 * 2
    ∧ (0:ℚ) ≤ 2250 :=
  ⟨(C10_algebraic_relation zeroGauss ⟨0, 0⟩ 3 2 (1/2) 1000 "Custom" 1 0
      { demand := [750], revenue := [2250], profit := [750] }
      (by norm_num [ValidParams]) run_concrete_750).1 0,
   (C10_algebraic_relation zeroGauss ⟨0, 0⟩ 3 2 (1/2) 1000 "Custom" 1 0
      { demand := [750], revenue := [2250], profit := [750] }
      (by norm_num [ValidParams]) run_concrete_750).2 2250
      (List.mem_singleton_self 2250)⟩
